import Mathlib

/-!
Verification development for the EduSeek LMS scraping / ingestion backend.

Each Python function relevant to the checked properties is shallowly embedded
as an executable Lean definition, translated from the source files:
  - `backend/playwright_scraper_runner.py` (login / 2FA detection),
  - `backend/lms_scraper/scrape_onq_files.py` (file discovery, duplicate policy),
  - `backend/lms_scraper/ingest_downloaded_files.py` (ingestion uploader),
  - `backend/services/onq_subprocess_service.py` (job supervisor).
Effects (filesystem, network, process handles) are made explicit parameters.
-/

namespace EduSeek

/-! ## Python string primitives

Models of the CPython string operations the scraper code relies on:
`str.strip`, `str.lower`, `str.split('\n')`, substring membership (`in`),
and `re.findall(r'\b(\d{2})\b', s)`.  All inputs in this code path are ASCII,
so ASCII case folding and the ASCII word-character class are used. -/

/-- The characters `str.strip()` removes (Python string whitespace). -/
def pyWs (c : Char) : Bool :=
  c == ' ' || c == '\t' || c == '\n' || c == '\r' || c == '\x0b' || c == '\x0c'

/-- `str.strip()` on a character list. -/
def pyStrip (l : List Char) : List Char :=
  ((l.dropWhile pyWs).reverse.dropWhile pyWs).reverse

/-- `str.strip()` on a string. -/
def pyStripS (s : String) : String := String.mk (pyStrip s.data)

/-- `str.lower()` (ASCII). -/
def pyLower (s : String) : String := String.mk (s.data.map Char.toLower)

/-- Prefix test: does the list start with the given needle? -/
def leadsWith : List Char → List Char → Bool
  | [], _ => true
  | _ :: _, [] => false
  | a :: as, b :: bs => a == b && leadsWith as bs

/-- Python substring membership `needle in hay` on character lists. -/
def listContains : List Char → List Char → Bool
  | [], needle => needle.isEmpty
  | hay@(_ :: t), needle => leadsWith needle hay || listContains t needle

/-- Python substring membership `needle in hay` on strings. -/
def strContains (hay needle : String) : Bool := listContains hay.data needle.data

/-- `str.split('\n')`: split at every newline, keeping empty pieces. -/
def splitOnNL : List Char → List (List Char)
  | [] => [[]]
  | c :: rest =>
    let r := splitOnNL rest
    if c == '\n' then [] :: r
    else
      match r with
      | [] => [[c]]
      | h :: t => (c :: h) :: t

/-- `[line.strip() for line in s.split('\n') if line.strip()]`. -/
def pyLines (s : String) : List String :=
  (((splitOnNL s.data).map pyStrip).filter (fun l => !l.isEmpty)).map String.mk

/-- Python regex `\w` over ASCII input: letters, digits, underscore. -/
def isWordChar (c : Char) : Bool := c.isAlphanum || c == '_'

/-- Scanner for `re.findall(r'\b(\d{2})\b', s)`: a match is two digit
characters with a word boundary on each side.  Because both boundaries are
required, matches can never overlap, so advancing one character at a time
yields exactly the non-overlapping matches `findall` returns, in order. -/
def twoDigitGo : Option Char → List Char → List String
  | _, [] => []
  | _, [_] => []
  | prev, c1 :: c2 :: rest =>
    let okPrev := match prev with | none => true | some p => !isWordChar p
    let okNext := match rest with | [] => true | c3 :: _ => !isWordChar c3
    let here :=
      if c1.isDigit && c2.isDigit && okPrev && okNext then [String.mk [c1, c2]] else []
    here ++ twoDigitGo (some c1) (c2 :: rest)

/-- `re.findall(r'\b(\d{2})\b', s)`. -/
def reFindTwoDigit (s : String) : List String := twoDigitGo none s.data

/-- The apostrophe character, as a one-character string. -/
def apos : String := String.mk [Char.ofNat 39]

/-! ## Two-Factor Matching Engine, Tier 2 fallback

From `backend/playwright_scraper_runner.py`, `login_and_get_session`,
lines 246-349: line-by-line scoring of every 2-digit number found in the
visible text of the page's text-bearing elements.  A page is modelled as the
list of the visible elements' `inner_text()` values. -/

/-- `target_phrases` (runner line 253). -/
def target_phrases : List String :=
  ["enter the number shown to sign in", "open your authenticator app"]

/-- `exclusion_phrases` (runner line 258). -/
def exclusion_phrases : List String :=
  ["don" ++ apos ++ "t ask again for", "remember this device", "stay signed in"]

/-- `general_phrases` (runner line 317). -/
def general_phrases : List String :=
  ["authenticator", "verification", "approve", "sign in"]

/-- One entry of `all_candidates`: `(num, line, full_text, line_idx)`. -/
structure Candidate where
  num : String
  line : String
  fullText : String
  lineIdx : Nat
deriving DecidableEq

/-- Candidate collection for one visible element (runner lines 264-278):
strip the element's inner text, split it into stripped non-empty lines, and
record every 2-digit regex match with its line and line index. -/
def elementCandidates (elementText : String) : List Candidate :=
  let fullText := pyStripS elementText
  if fullText.isEmpty then []
  else
    ((pyLines fullText).enum.map
      (fun p => (reFindTwoDigit p.2).map
        (fun n => Candidate.mk n p.2 fullText p.1))).flatten

/-- `all_candidates` over the whole page, in element order. -/
def collectCandidates (elements : List String) : List Candidate :=
  (elements.map elementCandidates).flatten

/-- Classification outcome of one candidate (runner lines 289-322). -/
inductive CandClass where
  | excluded
  | strongSame
  | strongFollow
  | weak
  | ignored
deriving DecidableEq

/-- Candidate classification (runner lines 289-322): exclusion phrase in the
same line wins, else target phrase in the same line, else target phrase in the
previous line of the same element's text block, else general 2FA vocabulary in
the line, else ignored. -/
def classifyCandidate (c : Candidate) : CandClass :=
  let lineLower := pyLower c.line
  let hasTargetSame := target_phrases.any (fun p => strContains lineLower p)
  let hasTargetPrev :=
    if c.lineIdx > 0 then
      let lines := pyLines c.fullText
      if c.lineIdx < lines.length then
        target_phrases.any
          (fun p => strContains (pyLower (lines.getD (c.lineIdx - 1) "")) p)
      else false
    else false
  let hasExcl := exclusion_phrases.any (fun p => strContains lineLower p)
  if hasExcl then CandClass.excluded
  else if hasTargetSame then CandClass.strongSame
  else if hasTargetPrev then CandClass.strongFollow
  else if general_phrases.any (fun p => strContains lineLower p) then CandClass.weak
  else CandClass.ignored

/-- Selection step exactly as the code performs it (runner lines 328-344):
`strong_candidates` keeps same-line and following-line candidates in encounter
order; if it is non-empty the first same-line one wins, else its first element;
otherwise the first weak candidate; otherwise none. -/
def selectTwofa (cs : List Candidate) : Option String :=
  let strong := cs.filter (fun c =>
    classifyCandidate c == CandClass.strongSame ||
    classifyCandidate c == CandClass.strongFollow)
  let weakL := cs.filter (fun c => classifyCandidate c == CandClass.weak)
  if !strong.isEmpty then
    let sameLine := strong.filter (fun c => classifyCandidate c == CandClass.strongSame)
    if !sameLine.isEmpty then sameLine.head?.map Candidate.num
    else strong.head?.map Candidate.num
  else weakL.head?.map Candidate.num

/-- Tier-2 fallback 2FA detection over a page's visible element texts,
as implemented. -/
def fallback_detect_twofa (elements : List String) : Option String :=
  selectTwofa (collectCandidates elements)

/-- Selection as the specification words it: the first same-line strong
candidate if any exist, else the first following-line strong candidate, else
the first weak candidate, else none. -/
def selectTwofaSpec (cs : List Candidate) : Option String :=
  let sameL := cs.filter (fun c => classifyCandidate c == CandClass.strongSame)
  let followL := cs.filter (fun c => classifyCandidate c == CandClass.strongFollow)
  let weakL := cs.filter (fun c => classifyCandidate c == CandClass.weak)
  match sameL.head? with
  | some c => some c.num
  | none =>
    match followL.head? with
    | some c => some c.num
    | none => weakL.head?.map Candidate.num

/-- Spec-side statement of the Tier-2 fallback detection. -/
def spec_detect_twofa (elements : List String) : Option String :=
  selectTwofaSpec (collectCandidates elements)

/-! ## Duplicate-Safe Materialization and file discovery

From `backend/lms_scraper/scrape_onq_files.py`. -/

/-- Index of the last occurrence of a character, or `-1` (Python `str.rfind`). -/
def rfindChar (l : List Char) (c : Char) : Int :=
  match l.enum.foldl (fun acc p => if p.2 == c then some p.1 else acc)
      (none : Option Nat) with
  | none => -1
  | some i => (i : Int)

/-- `ntpath.splitext` as CPython implements it: the extension starts at the
last dot after the last path separator, unless the file name up to that dot
consists only of dots. -/
def splitext (s : String) : String × String :=
  let l := s.data
  let sepIndex := max (rfindChar l '\\') (rfindChar l '/')
  let dotIndex := rfindChar l '.'
  if sepIndex < dotIndex then
    let fi := (sepIndex + 1).toNat
    let di := dotIndex.toNat
    if ((l.drop fi).take (di - fi)).any (fun c => !(c == '.')) then
      (String.mk (l.take di), String.mk (l.drop di))
    else (s, "")
  else (s, "")

/-- `get_file_type` (scraper lines 33-51): file-type category from the
lowercased filename extension. -/
def get_file_type (filename : String) : String :=
  let ext := pyLower (splitext filename).2
  if ext == ".pdf" then "pdf"
  else if ext == ".html" then "html"
  else if ext == ".doc" || ext == ".docx" then "word"
  else if ext == ".ppt" || ext == ".pptx" then "powerpoint"
  else if ext == ".xls" || ext == ".xlsx" then "excel"
  else if ext == ".txt" then "text"
  else if ext == ".zip" || ext == ".rar" then "compressed"
  else
    let stripped := String.mk (ext.data.dropWhile (fun c => c == '.'))
    if stripped.isEmpty then "other" else stripped

/-- `get_unique_filename` (scraper lines 60-73).  The filesystem is the list
of existing paths; the function only reads it (one `os.path.exists` call) and
returns it unchanged together with `(resolved path | None, action | None)`.
The current timestamp is an explicit argument. -/
def get_unique_filename (fs : List String) (path strategy timestamp : String) :
    (Option String × Option String) × List String :=
  if !fs.contains path then ((some path, none), fs)
  else if strategy == "overwrite" then ((some path, some "overwrite"), fs)
  else if strategy == "skip" then ((none, some "skip"), fs)
  else
    let be := splitext path
    ((some (be.1 ++ "_" ++ timestamp ++ be.2), some "rename"), fs)

/-- One record of the batch metadata file. -/
structure ScrapedFileEntry where
  filename : String
  path : String
  file_type : String
  source : String
  scrape_batch_id : Option String
deriving DecidableEq

/-- Construction of one metadata entry for an extracted file
(scraper lines 253-260): the relative path has `/` replaced by `\`and the
`source` field is the constant the code writes. -/
def mkScrapedFileEntry (fname relPath : String) (batch : Option String) :
    ScrapedFileEntry :=
  { filename := fname
    path := relPath.replace "/" "\\"
    file_type := get_file_type fname
    source := "zip_download"
    scrape_batch_id := batch }

/-- The `file_list` written to the batch metadata JSON (scraper lines
250-267): one entry per `(filename, relative path)` found under the
extraction root. -/
def buildFileList (found : List (String × String)) (batch : Option String) :
    List ScrapedFileEntry :=
  found.map (fun p => mkScrapedFileEntry p.1 p.2 batch)

/-! ## "Stay signed in?" interstitial detection

From `backend/playwright_scraper_runner.py`, lines 399-421: the interstitial
is detected by URL substring, and failing that by probing two "No"-button
selectors for visibility.  The DOM is modelled by its visibility oracle. -/

/-- `no_button_selectors` (runner lines 410-413). -/
def no_button_selectors : List String :=
  ["input#idBtn_Back", "input[type=\"button\"][value=\"No\"]"]

/-- The detection step of the post-2FA polling loop: URL method first, then
the DOM method over the "No"-button selectors. -/
def detect_stay_signed_in (current_url : String) (visible : String → Bool) : Bool :=
  if strContains current_url "/SAS/ProcessAuth" then true
  else no_button_selectors.any visible

/-! ## Login contract arity

From `backend/playwright_scraper_runner.py` line 8 and
`backend/integrated_onq_scraper.py` line 160.  `login_and_get_session` is
declared with exactly the parameters `(p, username, password)` (no defaults,
no varargs) and both of its `return` statements (lines 380 and 532) return
the 3-tuple `(browser, context, page)`; the pipeline caller passes four
positional arguments and unpacks four values. -/

/-- The declared parameter list of `login_and_get_session`. -/
def login_and_get_session_params : List String := ["p", "username", "password"]

/-- Arity of the tuple `login_and_get_session` returns on every
non-raising path. -/
def login_and_get_session_return_arity : Nat := 3

/-- Number of positional arguments in the call at
`integrated_onq_scraper.py:160`:
`login_and_get_session(p, username, password, status_callback)`. -/
def integrated_call_arg_count : Nat := 4

/-- Number of names the caller unpacks the result into:
`browser, context, page, twofa_number = await login_and_get_session(...)`. -/
def integrated_unpack_arity : Nat := 4

/-- A positional Python call binds without `TypeError` exactly when the
argument count equals the parameter count (the callee declares no defaults
and no varargs). -/
def python_positional_call_ok (params : List String) (nargs : Nat) : Bool :=
  nargs == params.length

/-! ## Job Supervisor

From `backend/services/onq_subprocess_service.py`.  Process liveness is the
`poll()` result (`none` while running, `some code` after exit); the status
and results files are explicit arguments. -/

/-- The status dictionary shape used by the supervisor and the status file. -/
structure SyncStatus where
  is_running : Bool
  current_step : String
  progress : Int
  message : String
  error : Option String
  results : Option String
  job_id : Option String
deriving DecidableEq

/-- The initial status dictionary `start_onq_sync_subprocess` writes to the
job's status file (service lines 93-101). -/
def initial_status (job_id : String) : SyncStatus :=
  { is_running := true
    current_step := "starting"
    progress := 0
    message := "Starting OnQ sync subprocess..."
    error := none
    results := none
    job_id := some job_id }

/-- The value `start_onq_sync_subprocess` returns to its caller. -/
structure StartResult where
  status : String
  message : String
  job_id : Option String
deriving DecidableEq

/-- `start_onq_sync_subprocess` (service lines 22-114), success path: spawn
the worker, record it, write the initial status file, return immediately.
The result is the returned dictionary together with the status-file content
written.  The fresh job id is an explicit argument (the code draws it from
`uuid4`). -/
def start_onq_sync_subprocess (job_id : String) : StartResult × SyncStatus :=
  ({ status := "started"
     message := "OnQ sync started as subprocess"
     job_id := some job_id },
   initial_status job_id)

/-- `get_onq_sync_status` (service lines 123-222) for a tracked job:
`poll` is the child's `poll()` result, `statusFile` the parsed status file
(`none` when missing or unparseable), `resultsFile` the parsed results file,
`stderr` the child's captured stderr.  The base status derives `is_running`
from process liveness; a readable status file overrides every field except
`job_id`; if the process has exited while the (possibly stale) status still
claims it is running, a terminal `completed`/`error` status is synthesized
from the exit code. -/
def get_onq_sync_status (job_id : String) (poll : Option Int)
    (statusFile : Option SyncStatus) (resultsFile : Option String)
    (stderr : Option String) : SyncStatus :=
  let base : SyncStatus :=
    { is_running := poll.isNone
      current_step := "unknown"
      progress := 0
      message := "No status available"
      error := none
      results := none
      job_id := some job_id }
  let merged :=
    match statusFile with
    | some fileStatus => { fileStatus with job_id := some job_id }
    | none => base
  match poll with
  | none => merged
  | some code =>
    if merged.is_running then
      if code == 0 then
        { merged with
            is_running := false
            current_step := "completed"
            progress := 100
            message := "OnQ sync completed successfully"
            error := none
            results := resultsFile }
      else
        let errMsg :=
          match stderr with
          | some s => if s.isEmpty then "OnQ sync process failed"
                      else "OnQ sync failed: " ++ pyStripS s
          | none => "OnQ sync process failed"
        { merged with
            is_running := false
            current_step := "error"
            progress := 0
            message := errMsg
            error := some errMsg
            results := none }
    else merged

/-! ## Ingestion Uploader

From `backend/lms_scraper/ingest_downloaded_files.py`.  The environment
carries the filesystem existence oracle, the content-hash function and the
HTTP oracle (`Except` error = network/IO exception, `ok n` = a completed
exchange with status `n`). -/

/-- `DOWNLOADS_DIR` constant (ingest line 33). -/
def DOWNLOADS_DIR : String := "downloads"

/-- `os.path.join(DOWNLOADS_DIR, rel)` on the Windows host the code targets. -/
def joinPath (dir rel : String) : String := dir ++ "\\" ++ rel

/-- One record of the batch metadata file as the ingester reads it. -/
structure FileEntry where
  filename : String
  path : String
  file_type : String
deriving DecidableEq

/-- One audit-log record (`log_entries` element, ingest lines 133-154). -/
structure LogEntry where
  filename : String
  path : String
  course_id : Option String
  course_name : Option String
  scrape_batch_id : Option String
  timestamp : String
  status : String
  content_hash : Option String
deriving DecidableEq

/-- The effectful context `ingest_course_json` runs in. -/
structure IngestEnv where
  pathExists : String → Bool
  hashOf : String → String
  net : String → Except Unit Nat

/-- `upload_file` (ingest lines 83-112): hash the file, POST it, classify the
response; any exception gives `('failed', None)`. -/
def upload_file (env : IngestEnv) (file_path : String) : String × Option String :=
  match env.net file_path with
  | Except.error _ => ("failed", none)
  | Except.ok code =>
    if code == 200 then ("uploaded", some (env.hashOf file_path))
    else if code == 409 then ("duplicate", some (env.hashOf file_path))
    else ("failed", some (env.hashOf file_path))

/-- The per-entry step of the `ingest_course_json` loop (ingest lines
128-144): resolve the path under the downloads root; a missing file yields
`('missing', None)` without touching the network, otherwise the outcome of
`upload_file`. -/
def processEntry (env : IngestEnv) (e : FileEntry) : String × Option String :=
  let file_path := joinPath DOWNLOADS_DIR e.path
  if env.pathExists file_path then upload_file env file_path
  else ("missing", none)

/-- The audit-log record the loop appends for one entry. -/
def logEntryFor (course_id course_name batch : Option String) (now : String)
    (e : FileEntry) (outcome : String × Option String) : LogEntry :=
  { filename := e.filename
    path := e.path
    course_id := course_id
    course_name := course_name
    scrape_batch_id := batch
    timestamp := now
    status := outcome.1
    content_hash := outcome.2 }

/-- Counter quadruple `(uploaded, duplicate, failed, missing)`. -/
structure IngestCounts where
  uploaded : Nat
  duplicate : Nat
  failed : Nat
  missing : Nat
deriving DecidableEq

/-- The `for entry in entries` loop of `ingest_course_json` (lines 126-161):
per entry, exactly one counter is bumped (`uploaded`/`duplicate` by name,
`missing` for an absent file, anything else `failed`) and one log record is
appended, in order. -/
def ingestLoop (env : IngestEnv) (course_id course_name batch : Option String)
    (now : String) : List FileEntry → IngestCounts × List LogEntry
  | [] => (⟨0, 0, 0, 0⟩, [])
  | e :: rest =>
    let outcome := processEntry env e
    let tail := ingestLoop env course_id course_name batch now rest
    let c := tail.1
    let c2 :=
      if outcome.1 == "missing" then { c with missing := c.missing + 1 }
      else if outcome.1 == "uploaded" then { c with uploaded := c.uploaded + 1 }
      else if outcome.1 == "duplicate" then { c with duplicate := c.duplicate + 1 }
      else { c with failed := c.failed + 1 }
    (c2, logEntryFor course_id course_name batch now e outcome :: tail.2)

/-- The existing audit log as read back (ingest lines 71-78): `none` models a
missing file, `some none` an unparseable one, both treated as the empty list. -/
def load_ingestion_log : Option (Option (List LogEntry)) → List LogEntry
  | none => []
  | some none => []
  | some (some l) => l

/-- `append_to_ingestion_log` (ingest lines 69-81): read-merge-append-write of
the whole log file. -/
def append_to_ingestion_log (old : Option (Option (List LogEntry)))
    (log_entries : List LogEntry) : List LogEntry :=
  load_ingestion_log old ++ log_entries

/-- `ingest_course_json` (ingest lines 114-164): run the loop over the batch
entries and rewrite the audit log with the new records appended; returns the
counters and the log file's new content. -/
def ingest_course_json (env : IngestEnv) (entries : List FileEntry)
    (course_id course_name batch : Option String) (now : String)
    (old : Option (Option (List LogEntry))) : IngestCounts × List LogEntry :=
  let r := ingestLoop env course_id course_name batch now entries
  (r.1, append_to_ingestion_log old r.2)

/-! ## Helper lemmas -/

/-- Appending strings is appending their character lists. -/
theorem mk_append_mk (a b : List Char) : String.mk a ++ String.mk b = String.mk (a ++ b) := rfl

/-- The empty string is right-neutral for append. -/
theorem str_append_empty (s : String) : s ++ "" = s := by
  show String.mk (s.data ++ []) = s
  rw [List.append_nil]

/-- `splitext` is a split: base and extension concatenate back to the path. -/
theorem splitext_append (s : String) : (splitext s).1 ++ (splitext s).2 = s := by
  simp only [splitext]
  split
  · split
    · show String.mk _ ++ String.mk _ = s
      rw [mk_append_mk, List.take_append_drop]
    · exact str_append_empty s
  · exact str_append_empty s

/-- The selection step as coded (same-line filter over the accumulated strong
list) picks exactly what the specification describes (first same-line strong,
else first following-line strong, else first weak). -/
theorem selectTwofa_eq_spec (cs : List Candidate) : selectTwofa cs = selectTwofaSpec cs := by
  have hA : (cs.filter (fun c => classifyCandidate c == CandClass.strongSame ||
      classifyCandidate c == CandClass.strongFollow)).filter
        (fun c => classifyCandidate c == CandClass.strongSame)
      = cs.filter (fun c => classifyCandidate c == CandClass.strongSame) := by
    rw [List.filter_filter]
    apply List.filter_congr
    intro c _
    cases h : (classifyCandidate c == CandClass.strongSame) <;> simp [h]
  by_cases hp : cs.filter (fun c => classifyCandidate c == CandClass.strongSame) = []
  · have hall := List.filter_eq_nil_iff.mp hp
    have hsq : cs.filter (fun c => classifyCandidate c == CandClass.strongSame ||
        classifyCandidate c == CandClass.strongFollow)
        = cs.filter (fun c => classifyCandidate c == CandClass.strongFollow) := by
      apply List.filter_congr
      intro c hc
      have h1 : (classifyCandidate c == CandClass.strongSame) = false :=
        Bool.eq_false_iff.mpr (hall c hc)
      simp [h1]
    simp only [selectTwofa, selectTwofaSpec]
    rw [hA, hp, hsq]
    cases hq : cs.filter (fun c => classifyCandidate c == CandClass.strongFollow) with
    | nil => simp
    | cons h t => simp
  · simp only [selectTwofa, selectTwofaSpec]
    rw [hA]
    cases hs : cs.filter (fun c => classifyCandidate c == CandClass.strongSame) with
    | nil => exact absurd hs hp
    | cons h t =>
      have hstrong : cs.filter (fun c => classifyCandidate c == CandClass.strongSame ||
          classifyCandidate c == CandClass.strongFollow) ≠ [] := by
        intro hnil
        have hall2 := List.filter_eq_nil_iff.mp hnil
        have hmem : h ∈ cs.filter (fun c => classifyCandidate c == CandClass.strongSame) := by
          rw [hs]; exact List.mem_cons_self h t
        have hpair := List.mem_filter.mp hmem
        have := hall2 h hpair.1
        simp [hpair.2] at this
      cases hstr : cs.filter (fun c => classifyCandidate c == CandClass.strongSame ||
          classifyCandidate c == CandClass.strongFollow) with
      | nil => exact absurd hstr hstrong
      | cons h2 t2 => simp

/-! ## Claim theorems -/

/-- C1: the Tier-2 fallback 2FA detection classifies every 2-digit number by
its line (excluded on an exclusion phrase in the same line, strong on a
target phrase in the same or the previous line, weak on general 2FA
vocabulary, otherwise ignored) and selects the first same-line strong
candidate, else the first following-line strong candidate, else the first
weak candidate, else none; the implemented selection coincides with that
specification on every page, and on a page with the lines
"Enter the number shown to sign in: 42" and
"Don\x27t ask again for 14 days" the detected code is "42", not "14". -/
theorem twofa_fallback_selection_correct :
    (∀ elements : List String, fallback_detect_twofa elements = spec_detect_twofa elements) ∧
    fallback_detect_twofa
      ["Enter the number shown to sign in: 42",
       "Don" ++ apos ++ "t ask again for 14 days"] = some "42" := by
  constructor
  · intro elements
    exact selectTwofa_eq_spec (collectCandidates elements)
  · decide

/-- C3 (code bug): the pipeline caller at `integrated_onq_scraper.py:160`
passes four positional arguments (including a status callback) to
`login_and_get_session` and unpacks four returned values, but the function is
declared with exactly three parameters and returns a 3-tuple without the 2FA
code, so the call raises `TypeError` instead of honouring the contract
`login(username, password, on_status?) -> (session, twofa_code | null)`. -/
theorem login_call_contract_broken :
    python_positional_call_ok login_and_get_session_params integrated_call_arg_count = false ∧
    integrated_unpack_arity ≠ login_and_get_session_return_arity := by decide

/-- C4 counterexample: a metadata entry built by `scrape_course_files` for the
extracted file "a.pdf" carries `source = "zip_download"`, refuting the claim
that every entry has `source = "archive_download"`. -/
theorem scraped_entry_source_not_archive_download :
    (mkScrapedFileEntry "a.pdf" "a.pdf" (some "batch_20240101-000000")).source
      ≠ "archive_download" := by decide

/-- C4 (amended): every `ScrapedFileEntry` written to a batch metadata file
has its `source` field equal to "zip_download". -/
theorem scraped_entry_source_is_zip_download :
    ∀ (found : List (String × String)) (batch : Option String),
      (buildFileList found batch).all (fun e => e.source == "zip_download") = true := by
  intro found batch
  simp only [buildFileList, List.all_eq_true, List.mem_map]
  rintro e ⟨p, hp, rfl⟩
  rfl

/-- C5: when the target path already exists, the rename strategy returns the
path with `_<timestamp>` inserted between base name and extension (base and
extension recombine to the original path) and leaves the filesystem
untouched; the overwrite strategy returns the path unchanged; the skip
strategy returns none. -/
theorem get_unique_filename_strategies (fs : List String) (path timestamp : String)
    (hex : fs.contains path = true) :
    (∃ base ext : String, splitext path = (base, ext) ∧ base ++ ext = path ∧
      get_unique_filename fs path "rename" timestamp =
        ((some (base ++ "_" ++ timestamp ++ ext), some "rename"), fs)) ∧
    get_unique_filename fs path "overwrite" timestamp = ((some path, some "overwrite"), fs) ∧
    get_unique_filename fs path "skip" timestamp = ((none, some "skip"), fs) := by
  have hmem : path ∈ fs := by simpa using hex
  refine ⟨⟨(splitext path).1, (splitext path).2, rfl, splitext_append path, ?_⟩, ?_, ?_⟩ <;>
    simp [get_unique_filename, hex, hmem]

/-- C5 witness: concrete run of the rename strategy on an existing path. -/
theorem get_unique_filename_strategies_witness :
    (["downloads\\a.pdf"] : List String).contains "downloads\\a.pdf" = true ∧
    get_unique_filename ["downloads\\a.pdf"] "downloads\\a.pdf" "rename" "20240101-010101"
      = ((some "downloads\\a_20240101-010101.pdf", some "rename"), ["downloads\\a.pdf"]) := by
  constructor
  · decide
  · obtain ⟨⟨base, ext, hse, _, hr⟩, _, _⟩ :=
      get_unique_filename_strategies ["downloads\\a.pdf"] "downloads\\a.pdf" "20240101-010101"
        (by decide)
    have hb : base = "downloads\\a" := by
      have := congrArg Prod.fst hse
      simpa using this.symm
    have he : ext = ".pdf" := by
      have := congrArg Prod.snd hse
      simpa using this.symm
    rw [hr, hb, he]
    decide

/-- C9: the "stay signed in" interstitial is detected whenever the URL
contains "/SAS/ProcessAuth", whatever the DOM shows, and whenever one of the
two "No"-button selectors is visible, whatever the URL is — each detection
method alone suffices. -/
theorem stay_signed_in_detection_methods :
    (∀ (url : String) (visible : String → Bool),
        strContains url "/SAS/ProcessAuth" = true →
        detect_stay_signed_in url visible = true) ∧
    (∀ (url : String) (visible : String → Bool) (sel : String),
        sel ∈ no_button_selectors → visible sel = true →
        detect_stay_signed_in url visible = true) := by
  constructor
  · intro url visible h
    simp [detect_stay_signed_in, h]
  · intro url visible sel hs hv
    unfold detect_stay_signed_in
    split
    · rfl
    · exact List.any_eq_true.mpr ⟨sel, hs, hv⟩

/-- C9 witness: URL-only detection with no button in the DOM, and DOM-only
detection on a non-matching URL. -/
theorem stay_signed_in_detection_witness :
    detect_stay_signed_in "https://login.microsoftonline.com/common/SAS/ProcessAuth"
      (fun _ => false) = true ∧
    detect_stay_signed_in "https://onq.queensu.ca/d2l/home"
      (fun sel => sel == "input#idBtn_Back") = true := by
  constructor
  · exact stay_signed_in_detection_methods.1 _ _ (by decide)
  · exact stay_signed_in_detection_methods.2 _ _ "input#idBtn_Back" (by decide) (by decide)

/-- C2 counterexample: immediately after `start_onq_sync_subprocess`, the
status file holds the parent-written initial status whose `current_step` is
"starting", so the first `get_onq_sync_status` call does not report
"initializing". -/
theorem start_then_status_not_initializing :
    (get_onq_sync_status "ab12cd34" none
        (some (start_onq_sync_subprocess "ab12cd34").2) none none).current_step
      ≠ "initializing" := by decide

/-- C2 (amended): start followed immediately by status reports
`is_running = true` and `current_step = "starting"`; and for a job whose
child exited with code 0 while the last-written status file still claims
`is_running = true`, the next status call reports `is_running = false`,
`current_step = "completed"` and the recovered results, whatever the child
last wrote. -/
theorem job_status_transitions :
    (∀ job_id : String,
      (get_onq_sync_status job_id none
          (some (start_onq_sync_subprocess job_id).2) none none).is_running = true ∧
      (get_onq_sync_status job_id none
          (some (start_onq_sync_subprocess job_id).2) none none).current_step = "starting") ∧
    (∀ (job_id : String) (fileStatus : SyncStatus) (resultsFile stderr : Option String),
      fileStatus.is_running = true →
      (get_onq_sync_status job_id (some 0) (some fileStatus) resultsFile stderr).is_running
        = false ∧
      (get_onq_sync_status job_id (some 0) (some fileStatus) resultsFile stderr).current_step
        = "completed" ∧
      (get_onq_sync_status job_id (some 0) (some fileStatus) resultsFile stderr).results
        = resultsFile) := by
  constructor
  · intro job_id
    exact ⟨rfl, rfl⟩
  · intro job_id fileStatus resultsFile stderr h
    simp [get_onq_sync_status, h]

/-- C2 witness: concrete start-then-status run, and crash recovery for a
child that exited with code 0 right after the initial status write. -/
theorem job_status_transitions_witness :
    ((get_onq_sync_status "job1" none
        (some (start_onq_sync_subprocess "job1").2) none none).current_step = "starting") ∧
    ((initial_status "job1").is_running = true ∧
      (get_onq_sync_status "job1" (some 0) (some (initial_status "job1"))
          (some "results-payload") none).current_step = "completed") := by
  refine ⟨(job_status_transitions.1 "job1").2, rfl, ?_⟩
  exact (job_status_transitions.2 "job1" (initial_status "job1")
      (some "results-payload") none rfl).2.1

/-- C6: an entry whose resolved path does not exist is counted as missing,
logged with status "missing" and a null content hash, and never reaches the
network (the outcome is the same under every network oracle); for an
existing file the outcome is "uploaded" exactly on HTTP 200, "duplicate"
exactly on HTTP 409, and "failed" exactly otherwise (any other status or a
network exception). -/
theorem ingest_entry_classification (env : IngestEnv) (e : FileEntry)
    (course_id course_name batch : Option String) (now : String) :
    (env.pathExists (joinPath DOWNLOADS_DIR e.path) = false →
      processEntry env e = ("missing", none) ∧
      (logEntryFor course_id course_name batch now e (processEntry env e)).status = "missing" ∧
      (logEntryFor course_id course_name batch now e (processEntry env e)).content_hash = none ∧
      (∀ net2 : String → Except Unit Nat,
        processEntry { env with net := net2 } e = ("missing", none))) ∧
    (env.pathExists (joinPath DOWNLOADS_DIR e.path) = true →
      ((processEntry env e).1 = "uploaded" ↔
        env.net (joinPath DOWNLOADS_DIR e.path) = Except.ok 200) ∧
      ((processEntry env e).1 = "duplicate" ↔
        env.net (joinPath DOWNLOADS_DIR e.path) = Except.ok 409) ∧
      ((processEntry env e).1 = "failed" ↔
        (env.net (joinPath DOWNLOADS_DIR e.path) ≠ Except.ok 200 ∧
         env.net (joinPath DOWNLOADS_DIR e.path) ≠ Except.ok 409))) := by
  constructor
  · intro h
    have hpe : processEntry env e = ("missing", none) := by simp [processEntry, h]
    exact ⟨hpe, by simp [logEntryFor, hpe], by simp [logEntryFor, hpe],
      fun net2 => by simp [processEntry, h]⟩
  · intro h
    have hpe : processEntry env e = upload_file env (joinPath DOWNLOADS_DIR e.path) := by
      simp [processEntry, h]
    rw [hpe]
    unfold upload_file
    cases hn : env.net (joinPath DOWNLOADS_DIR e.path) with
    | error u => simp
    | ok code =>
      by_cases h200 : code = 200
      · subst h200; simp
      · by_cases h409 : code = 409
        · subst h409; simp
        · simp [h200, h409]

/-- C6 witness: a missing entry on an all-absent filesystem, and a duplicate
classification against a backend answering 409. -/
theorem ingest_entry_classification_witness :
    ((fun _ : String => false) (joinPath DOWNLOADS_DIR "a.pdf") = false ∧
      processEntry ⟨fun _ => false, fun _ => "h", fun _ => Except.ok 200⟩
        ⟨"a.pdf", "a.pdf", "pdf"⟩ = ("missing", none)) ∧
    ((fun _ : String => true) (joinPath DOWNLOADS_DIR "a.pdf") = true ∧
      (processEntry ⟨fun _ => true, fun _ => "h", fun _ => Except.ok 409⟩
        ⟨"a.pdf", "a.pdf", "pdf"⟩).1 = "duplicate") := by
  refine ⟨⟨rfl, ?_⟩, ⟨rfl, ?_⟩⟩
  · exact ((ingest_entry_classification ⟨fun _ => false, fun _ => "h", fun _ => Except.ok 200⟩
      ⟨"a.pdf", "a.pdf", "pdf"⟩ none none none "t").1 rfl).1
  · exact (((ingest_entry_classification ⟨fun _ => true, fun _ => "h", fun _ => Except.ok 409⟩
      ⟨"a.pdf", "a.pdf", "pdf"⟩ none none none "t").2 rfl).2.1).mpr rfl

/-- C10: every entry bumps exactly one of the four counters, so
`uploaded + duplicate + failed + missing` equals the number of entries in
the batch metadata file, for every environment and batch. -/
theorem ingest_counts_partition (env : IngestEnv)
    (course_id course_name batch : Option String) (now : String)
    (entries : List FileEntry) (old : Option (Option (List LogEntry))) :
    (ingest_course_json env entries course_id course_name batch now old).1.uploaded +
    (ingest_course_json env entries course_id course_name batch now old).1.duplicate +
    (ingest_course_json env entries course_id course_name batch now old).1.failed +
    (ingest_course_json env entries course_id course_name batch now old).1.missing
      = entries.length := by
  have key : ∀ es : List FileEntry,
      (ingestLoop env course_id course_name batch now es).1.uploaded +
      (ingestLoop env course_id course_name batch now es).1.duplicate +
      (ingestLoop env course_id course_name batch now es).1.failed +
      (ingestLoop env course_id course_name batch now es).1.missing = es.length := by
    intro es
    induction es with
    | nil => rfl
    | cons e rest ih =>
      rcases hc : (ingestLoop env course_id course_name batch now rest).1 with ⟨u, d, f, m⟩
      rw [hc] at ih
      simp only at ih
      simp only [ingestLoop, hc, List.length_cons]
      split_ifs <;> simp <;> omega
  exact key entries

/-- C8: if every entry of the batch resolves to an existing file and the
backend answers HTTP 409 to every upload, the returned counts are
`uploaded = 0`, `duplicate = len(entries)`, `failed = 0`, `missing = 0`. -/
theorem ingest_idempotent (env : IngestEnv)
    (course_id course_name batch : Option String) (now : String)
    (entries : List FileEntry) (old : Option (Option (List LogEntry)))
    (hex : ∀ e ∈ entries, env.pathExists (joinPath DOWNLOADS_DIR e.path) = true)
    (h409 : ∀ p : String, env.net p = Except.ok 409) :
    (ingest_course_json env entries course_id course_name batch now old).1
      = ⟨0, entries.length, 0, 0⟩ := by
  show (ingestLoop env course_id course_name batch now entries).1 = _
  induction entries with
  | nil => rfl
  | cons e rest ih =>
    have he := hex e (List.mem_cons_self e rest)
    have hpe : (processEntry env e).1 = "duplicate" := by
      simp [processEntry, he, upload_file, h409]
    have ih2 := ih (fun x hx => hex x (List.mem_cons_of_mem e hx))
    simp only [ingestLoop, hpe, ih2, List.length_cons]
    simp

/-- C8 witness: a one-entry batch, everything on disk, backend always 409. -/
theorem ingest_idempotent_witness :
    (ingest_course_json ⟨fun _ => true, fun _ => "h", fun _ => Except.ok 409⟩
        [⟨"a.pdf", "a.pdf", "pdf"⟩] none none none "t" none).1
      = ⟨0, 1, 0, 0⟩ :=
  ingest_idempotent ⟨fun _ => true, fun _ => "h", fun _ => Except.ok 409⟩
    none none none "t" [⟨"a.pdf", "a.pdf", "pdf"⟩] none
    (fun _ _ => rfl) (fun _ => rfl)

/-- C7: one run appends exactly one audit record per batch entry, the new log
is the old log (missing or unparseable treated as empty) followed by the new
records — every pre-existing record is preserved unchanged, in place. -/
theorem ingest_log_append_only (env : IngestEnv)
    (course_id course_name batch : Option String) (now : String)
    (entries : List FileEntry) (old : Option (Option (List LogEntry))) :
    (ingest_course_json env entries course_id course_name batch now old).2
      = load_ingestion_log old ++ (ingestLoop env course_id course_name batch now entries).2 ∧
    (ingestLoop env course_id course_name batch now entries).2.length = entries.length ∧
    load_ingestion_log none = [] ∧
    load_ingestion_log (some none) = [] := by
  refine ⟨rfl, ?_, rfl, rfl⟩
  induction entries with
  | nil => rfl
  | cons e rest ih => simp only [ingestLoop, List.length_cons, ih]

end EduSeek
